import Mathlib

/-!
Verification of the feature-engineering and rule-scoring core of the
Multi-Agent-Fraud-Detection-System repository.

The embedding follows the two source modules that carry the algorithmic
content:

* `src/data/etl.py` (`FraudETLPipeline.transform` and
  `FraudETLPipeline._detect_code_mismatches`) — the Feature Engine.  A raw
  claim table is a `List Claim`; every derived pandas column is a Lean
  function of the population and the claim (groupby/merge broadcasts are
  expressed as counts/sums over the population, which is exactly the value
  pandas attaches to each row).  `claim_date` is modelled as an integer day
  index (`pd.Timestamp` at day resolution; `pd.Timedelta(days=k)` is the
  integer `k`).  Day index 0 is anchored on a Thursday, as in the pandas
  epoch, so `dayofweek` (Monday = 0) is `(d + 3) mod 7`.  The calendar
  `month` column cannot be expressed over a bare day index and no property
  here concerns it, so it is the one column left out of the embedding.
  Claim amounts and the derived statistics are embedded as exact rationals;
  the z-score column, whose computation can produce IEEE special values
  before `fillna(0)` repairs them, is embedded in a dedicated value type
  `FloatV` that distinguishes NaN and the signed infinities from finite
  values.

* `src/fraud/rules.py` (`FraudDetector`) — the Rule Evaluator.  The
  detector re-reads the enriched table from SQLite; a stored row is a `Row`
  whose `amount_zscore` is a plain rational (the store holds only finite
  numbers; that the z-score column is always finite is itself proved below
  from the ETL embedding).  The per-rule explanation strings are
  f-formatted floats and are not modelled; no property below concerns their
  text.
-/

set_option autoImplicit false
set_option maxHeartbeats 1000000

/-- One raw claim record, a row of `data/raw/claims_data.csv` as loaded by
`FraudETLPipeline.extract`. -/
structure Claim where
  claim_id : String
  patient_id : String
  provider_id : String
  provider_specialty : String
  procedure_code : String
  diagnosis_code : String
  claim_amount : ℚ
  claim_date : ℤ
  status : String
  is_fraud : Bool
deriving DecidableEq

/-- Python `s.split(sep)` for a one-character separator, at the
character-list level (structural recursion, so concrete instances reduce in
the kernel). -/
def splitOnChar (sep : Char) : List Char → List (List Char)
  | [] => [[]]
  | c :: cs =>
    match splitOnChar sep cs with
    | [] => [[]]
    | h :: t => if c = sep then [] :: h :: t else (c :: h) :: t

/-- `'_'.join(pieces)` at the character-list level. -/
def joinUnderscore : List (List Char) → List Char
  | [] => []
  | [l] => l
  | l :: ls => l ++ '_' :: joinUnderscore ls

/-- `'_'.join(diagnosis.split('_')[:2])` — the diagnosis prefix used by
`FraudETLPipeline._detect_code_mismatches`. -/
def diagPfx (diagnosis : String) : String :=
  String.mk (joinUnderscore ((splitOnChar '_' diagnosis.data).take 2))

/-- `procedure.split('0')[0]` — the procedure prefix used by
`FraudETLPipeline._detect_code_mismatches`. -/
def procPfx (procedure : String) : String :=
  String.mk ((splitOnChar '0' procedure.data).headI)

/-- The `valid_combos` table of
`FraudETLPipeline._detect_code_mismatches`, in source order. -/
def validCombos : List (String × List String) :=
  [("D_HEART", ["CARD"]),
   ("D_CARDIAC", ["CARD"]),
   ("D_VASCULAR", ["CARD"]),
   ("D_CANCER", ["ONC"]),
   ("D_TUMOR", ["ONC"]),
   ("D_LEUKEMIA", ["ONC"]),
   ("D_LYMPHOMA", ["ONC"]),
   ("D_CHILD", ["PED"]),
   ("D_INFANT", ["PED"]),
   ("D_FEVER", ["PED", "GP"]),
   ("D_ALLERGY", ["PED", "GP"]),
   ("D_BONE", ["ORTH"]),
   ("D_JOINT", ["ORTH"]),
   ("D_FRACTURE", ["ORTH"]),
   ("D_SPRAIN", ["ORTH"]),
   ("D_ROUTINE", ["GP"]),
   ("D_CHECKUP", ["GP"]),
   ("D_FLU", ["GP", "ER"]),
   ("D_COMMON", ["GP"]),
   ("D_ACCIDENT", ["ER", "ORTH"]),
   ("D_TRAUMA", ["ER", "SURG"]),
   ("D_URGENT", ["ER"]),
   ("D_CRITICAL", ["ER", "SURG"]),
   ("D_SURGICAL", ["SURG"]),
   ("D_OPERATION", ["SURG"]),
   ("D_PROCEDURE", ["SURG"]),
   ("D_INVASIVE", ["SURG"]),
   ("D_XRAY", ["RAD"]),
   ("D_SCAN", ["RAD"]),
   ("D_IMAGING", ["RAD"]),
   ("D_MRI", ["RAD"])]

/-- The per-claim branch body of `FraudETLPipeline._detect_code_mismatches`:
flag a mismatch only when the diagnosis prefix is a known family and the
procedure prefix is not in its accepted set. -/
def is_code_mismatch (c : Claim) : Bool :=
  match validCombos.lookup (diagPfx c.diagnosis_code) with
  | some procs => !(procs.contains (procPfx c.procedure_code))
  | none => false

/-- The claims of `pop` issued by provider `pid`
(`df.groupby('provider_id')` membership). -/
def providerClaims (pop : List Claim) (pid : String) : List Claim :=
  pop.filter (fun x => x.provider_id == pid)

/-- `provider_avg_amount` column: mean claim amount of the claim's
provider. -/
def provider_avg_amount (pop : List Claim) (pid : String) : ℚ :=
  ((providerClaims pop pid).map Claim.claim_amount).sum /
    ((providerClaims pop pid).length : ℚ)

/-- `provider_total_claims` column. -/
def provider_total_claims (pop : List Claim) (pid : String) : ℕ :=
  (providerClaims pop pid).length

/-- The claims of `pop` in specialty `s`
(`df.groupby('provider_specialty')` membership). -/
def specialtyClaims (pop : List Claim) (s : String) : List Claim :=
  pop.filter (fun x => x.provider_specialty == s)

/-- `specialty_avg_amount` column: mean claim amount within the
specialty. -/
def specialty_avg_amount (pop : List Claim) (s : String) : ℚ :=
  ((specialtyClaims pop s).map Claim.claim_amount).sum /
    ((specialtyClaims pop s).length : ℚ)

/-- The square of the pandas sample standard deviation (`ddof = 1`) of
claim amounts within a specialty: `Σ (xᵢ − mean)² / (n − 1)`.  For `n < 2`
pandas reports NaN; that case is handled where the square root is taken,
in `specialty_std_amount`. -/
def specialtyVariance (pop : List Claim) (s : String) : ℚ :=
  (((specialtyClaims pop s).map
      (fun x => (x.claim_amount - specialty_avg_amount pop s) ^ 2)).sum) /
    (((specialtyClaims pop s).length : ℚ) - 1)

/-- A value of the z-score / standard-deviation columns as pandas holds it:
an IEEE double that is either finite (modelled exactly as a real), NaN, or
a signed infinity. -/
inductive FloatV where
  | nan
  | pinf
  | ninf
  | val (x : ℝ)

/-- IEEE division on `FloatV` (signed zero collapsed to `0`): a zero
divisor yields NaN on a zero dividend and a signed infinity otherwise; NaN
propagates through every operation. -/
noncomputable def fdiv : FloatV → FloatV → FloatV
  | .val a, .val b =>
      if b = 0 then (if a = 0 then .nan else if 0 < a then .pinf else .ninf)
      else .val (a / b)
  | .nan, _ => .nan
  | _, .nan => .nan
  | .pinf, .pinf => .nan
  | .pinf, .ninf => .nan
  | .ninf, .pinf => .nan
  | .ninf, .ninf => .nan
  | .pinf, .val b => if 0 ≤ b then .pinf else .ninf
  | .ninf, .val b => if 0 ≤ b then .ninf else .pinf
  | .val _, .pinf => .val 0
  | .val _, .ninf => .val 0

/-- `Series.fillna(0)` applied to one cell: NaN becomes `0`, everything
else (including infinities) is kept. -/
def fillna0 : FloatV → FloatV
  | .nan => .val 0
  | .pinf => .pinf
  | .ninf => .ninf
  | .val x => .val x

/-- `specialty_std_amount` column: the pandas sample standard deviation of
claim amounts within the specialty; NaN when the specialty has fewer than
two claims (`ddof = 1`). -/
noncomputable def specialty_std_amount (pop : List Claim) (s : String) : FloatV :=
  if (specialtyClaims pop s).length < 2 then FloatV.nan
  else FloatV.val (Real.sqrt ((specialtyVariance pop s : ℚ) : ℝ))

/-- `amount_zscore` column:
`((claim_amount - specialty_avg_amount) / specialty_std_amount).fillna(0)`. -/
noncomputable def amount_zscore (pop : List Claim) (c : Claim) : FloatV :=
  fillna0 (fdiv
    (FloatV.val ((c.claim_amount : ℚ) -
      (specialty_avg_amount pop c.provider_specialty : ℚ) : ℝ))
    (specialty_std_amount pop c.provider_specialty))

/-- `is_provider_outlier` column:
`provider_avg_amount > specialty_avg_amount * 2`. -/
def is_provider_outlier (pop : List Claim) (c : Claim) : Bool :=
  decide (specialty_avg_amount pop c.provider_specialty * 2 <
    provider_avg_amount pop c.provider_id)

/-- `patient_claims_7d` column: within the claim's patient group, the
number of claims whose date lies in the trailing inclusive window
`[claim_date − 7 days, claim_date]`.  This is the value the
`groupby('patient_id').apply` assignment lands on the claim's row whenever
that assignment succeeds at all; the populations on which the assignment
instead raises a `ValueError` (an empty population, or a single patient
group of two or more claims — a pandas result-shape flip) are
characterised separately by `windowCountAssignmentOk`. -/
def patient_claims_7d (pop : List Claim) (c : Claim) : ℕ :=
  pop.countP (fun x => x.patient_id == c.patient_id &&
    decide (c.claim_date - 7 ≤ x.claim_date) &&
    decide (x.claim_date ≤ c.claim_date))

/-- `patient_claims_30d` column: as `patient_claims_7d` with a 30-day
window (and the same `windowCountAssignmentOk` shape condition, since the
source repeats the identical `groupby.apply` idiom). -/
def patient_claims_30d (pop : List Claim) (c : Claim) : ℕ :=
  pop.countP (fun x => x.patient_id == c.patient_id &&
    decide (c.claim_date - 30 ≤ x.claim_date) &&
    decide (x.claim_date ≤ c.claim_date))

/-- The distinct patient keys of the population — the groups of
`df.groupby('patient_id')`. -/
def patientGroups (pop : List Claim) : List String :=
  (pop.map (fun c => c.patient_id)).dedup

/-- Whether the `patient_claims_7d`/`patient_claims_30d` assignment
`df['...'] = df.groupby('patient_id').apply(...).reset_index(level=0,`
`drop=True)` in `FraudETLPipeline.transform` succeeds, following the pandas
result-shape rules for a group-wise `apply` returning one Series per
group:

* zero groups — the `apply` yields an empty DataFrame, and setting a
  multi-column DataFrame into the single target column raises
  `ValueError`;
* exactly one group — the per-group Series indexes are trivially all
  equal, so the `apply` yields a one-row DataFrame whose columns are the
  group's row labels; the single-column assignment then raises
  `ValueError` unless that group has exactly one row;
* two or more groups — the row labels differ across groups, the `apply`
  yields a MultiIndexed Series, and after `reset_index(level=0,`
  `drop=True)` the assignment aligns each count with its row. -/
def windowCountAssignmentOk (pop : List Claim) : Bool :=
  match patientGroups pop with
  | [] => false
  | [_] => pop.length == 1
  | _ :: _ :: _ => true

/-- `same_day_claim_count` column: size of the claim's
`(patient_id, claim_date)` group. -/
def same_day_claim_count (pop : List Claim) (c : Claim) : ℕ :=
  pop.countP (fun x => x.patient_id == c.patient_id &&
    x.claim_date == c.claim_date)

/-- `day_of_week` column (`dt.dayofweek`, Monday = 0): day index 0 is a
Thursday, hence the shift by 3. -/
def day_of_week (c : Claim) : ℤ :=
  (c.claim_date + 3) % 7

/-- `is_weekend` column: `day_of_week.isin([5, 6])`. -/
def is_weekend (c : Claim) : Bool :=
  day_of_week c == 5 || day_of_week c == 6

/-- `duplicate_count` column: size of the claim's `claim_id` group. -/
def duplicate_count (pop : List Claim) (c : Claim) : ℕ :=
  pop.countP (fun x => x.claim_id == c.claim_id)

/-- `is_duplicate` column: `duplicate_count > 1`. -/
def is_duplicate (pop : List Claim) (c : Claim) : Bool :=
  decide (1 < duplicate_count pop c)

/-- `is_high_amount` column: `claim_amount > 50000`. -/
def is_high_amount (c : Claim) : Bool :=
  decide ((50000 : ℚ) < c.claim_amount)

/-- The fixed `surgery_codes` list of `FraudETLPipeline.transform`. -/
def surgeryCodes : List String :=
  ["SURG001", "SURG002", "SURG003", "SURG004", "CARD003", "ORTH003", "ONC002"]

/-- `is_surgery` column: `procedure_code.isin(surgery_codes)`. -/
def is_surgery (c : Claim) : Bool :=
  surgeryCodes.contains c.procedure_code

/-- `same_day_surgeries` column:
`same_day_claim_count > 1 and is_surgery`. -/
def same_day_surgeries (pop : List Claim) (c : Claim) : Bool :=
  decide (1 < same_day_claim_count pop c) && is_surgery c

/-- An enriched claim: a row of the dataframe produced by
`FraudETLPipeline.transform` (every engineered column except the calendar
`month`, see the module comment). -/
structure EnrichedClaim where
  claim_id : String
  patient_id : String
  provider_id : String
  provider_specialty : String
  procedure_code : String
  diagnosis_code : String
  claim_amount : ℚ
  claim_date : ℤ
  status : String
  is_fraud : Bool
  provider_avg_amount : ℚ
  provider_total_claims : ℕ
  specialty_avg_amount : ℚ
  specialty_std_amount : FloatV
  amount_zscore : FloatV
  is_provider_outlier : Bool
  patient_claims_7d : ℕ
  patient_claims_30d : ℕ
  same_day_claim_count : ℕ
  is_code_mismatch : Bool
  day_of_week : ℤ
  is_weekend : Bool
  duplicate_count : ℕ
  is_duplicate : Bool
  is_high_amount : Bool
  is_surgery : Bool
  same_day_surgeries : Bool

/-- All engineered columns of `FraudETLPipeline.transform` for one claim of
the population. -/
noncomputable def enrich (pop : List Claim) (c : Claim) : EnrichedClaim :=
  { claim_id := c.claim_id
    patient_id := c.patient_id
    provider_id := c.provider_id
    provider_specialty := c.provider_specialty
    procedure_code := c.procedure_code
    diagnosis_code := c.diagnosis_code
    claim_amount := c.claim_amount
    claim_date := c.claim_date
    status := c.status
    is_fraud := c.is_fraud
    provider_avg_amount := provider_avg_amount pop c.provider_id
    provider_total_claims := provider_total_claims pop c.provider_id
    specialty_avg_amount := specialty_avg_amount pop c.provider_specialty
    specialty_std_amount := specialty_std_amount pop c.provider_specialty
    amount_zscore := amount_zscore pop c
    is_provider_outlier := is_provider_outlier pop c
    patient_claims_7d := patient_claims_7d pop c
    patient_claims_30d := patient_claims_30d pop c
    same_day_claim_count := same_day_claim_count pop c
    is_code_mismatch := is_code_mismatch c
    day_of_week := day_of_week c
    is_weekend := is_weekend c
    duplicate_count := duplicate_count pop c
    is_duplicate := is_duplicate pop c
    is_high_amount := is_high_amount c
    is_surgery := is_surgery c
    same_day_surgeries := same_day_surgeries pop c }

/-- The `sort_values(['patient_id', 'claim_date'])` comparison. -/
def claimLE (a b : Claim) : Bool :=
  decide (a.patient_id < b.patient_id) ||
    (a.patient_id == b.patient_id && decide (a.claim_date ≤ b.claim_date))

/-- `df.sort_values(['patient_id', 'claim_date'])`. -/
def sortClaims (pop : List Claim) : List Claim :=
  pop.mergeSort claimLE

/-- `FraudETLPipeline.transform`: one whole-population pass producing the
enriched claim set (rows ordered by patient and date, every aggregate
computed over the full input snapshot).  This value-level function
describes the enriched rows the source produces when it runs to
completion; the populations on which the source instead aborts with a
`ValueError` at the window-count assignment are exactly those rejected by
`windowCountAssignmentOk`. -/
noncomputable def transform (pop : List Claim) : List EnrichedClaim :=
  (sortClaims pop).map (enrich pop)

/-- A claims-table row as `FraudDetector.load_data` reads it back from the
store: the raw fields plus every engineered column a rule consults.  The
stored `amount_zscore` is a plain (finite) number — `fillna(0)` removed the
only special value the column can carry, a fact proved below
(`amount_zscore_finite_and_edges`). -/
structure Row where
  claim_id : String
  claim_amount : ℚ
  procedure_code : String
  diagnosis_code : String
  is_fraud : Bool
  provider_avg_amount : ℚ
  specialty_avg_amount : ℚ
  amount_zscore : ℚ
  is_provider_outlier : Bool
  patient_claims_7d : ℕ
  patient_claims_30d : ℕ
  same_day_claim_count : ℕ
  is_code_mismatch : Bool
  duplicate_count : ℕ
  is_high_amount : Bool
  is_surgery : Bool
  same_day_surgeries : Bool

/-- Rule 1, `FraudDetector.rule_duplicate_claims`: `duplicate_count > 1`. -/
def rule_duplicate_claims (row : Row) : Bool :=
  decide (1 < row.duplicate_count)

/-- Rule 2, `FraudDetector.rule_amount_anomaly`: `abs(amount_zscore) > 3`,
else the high-amount flag. -/
def rule_amount_anomaly (row : Row) : Bool :=
  if 3 < |row.amount_zscore| then true else row.is_high_amount

/-- Rule 3, `FraudDetector.rule_code_mismatch`: the code-mismatch flag. -/
def rule_code_mismatch (row : Row) : Bool :=
  row.is_code_mismatch

/-- Rule 4, `FraudDetector.rule_velocity_fraud`: `patient_claims_7d >= 5`,
else `patient_claims_30d >= 10`. -/
def rule_velocity_fraud (row : Row) : Bool :=
  if 5 ≤ row.patient_claims_7d then true
  else decide (10 ≤ row.patient_claims_30d)

/-- Rule 5, `FraudDetector.rule_provider_outlier`: the provider-outlier
flag. -/
def rule_provider_outlier (row : Row) : Bool :=
  row.is_provider_outlier

/-- Rule 6, `FraudDetector.rule_impossible_scenario`: the same-day-surgery
flag, else (surgery and `patient_claims_7d >= 3`). -/
def rule_impossible_scenario (row : Row) : Bool :=
  if row.same_day_surgeries then true
  else row.is_surgery && decide (3 ≤ row.patient_claims_7d)

/-- The `fraud_flags` list accumulated by the per-row loop of
`FraudDetector.run_all_rules`: each of the six rules is evaluated in source
order and appends its label when it fires. -/
def fraud_flags (row : Row) : List String :=
  (if rule_duplicate_claims row then ["DUPLICATE"] else []) ++
  (if rule_amount_anomaly row then ["AMOUNT_ANOMALY"] else []) ++
  (if rule_code_mismatch row then ["CODE_MISMATCH"] else []) ++
  (if rule_velocity_fraud row then ["VELOCITY_FRAUD"] else []) ++
  (if rule_provider_outlier row then ["PROVIDER_OUTLIER"] else []) ++
  (if rule_impossible_scenario row then ["IMPOSSIBLE_SCENARIO"] else [])

/-- The `fraud_score` accumulator of `FraudDetector.run_all_rules` before
the cap: each firing rule adds its fixed weight. -/
def fraud_score_raw (row : Row) : ℕ :=
  (if rule_duplicate_claims row then 20 else 0) +
  (if rule_amount_anomaly row then 25 else 0) +
  (if rule_code_mismatch row then 15 else 0) +
  (if rule_velocity_fraud row then 20 else 0) +
  (if rule_provider_outlier row then 15 else 0) +
  (if rule_impossible_scenario row then 30 else 0)

/-- `fraud_score = min(fraud_score, 100)` — the cap applied after the six
rules. -/
def fraud_score (row : Row) : ℕ :=
  min (fraud_score_raw row) 100

/-- `fraud_detected = len(fraud_flags) > 0`. -/
def fraud_detected (row : Row) : Bool :=
  decide (0 < (fraud_flags row).length)

/-- One result record of `FraudDetector.run_all_rules` (the per-rule
explanation string, an f-formatted float rendering, is not modelled). -/
structure Assessment where
  claim_id : String
  fraud_detected : Bool
  fraud_score : ℕ
  rules_triggered : String
  actual_fraud : Bool

/-- The per-row body of the `FraudDetector.run_all_rules` loop. -/
def evaluate (row : Row) : Assessment :=
  { claim_id := row.claim_id
    fraud_detected := fraud_detected row
    fraud_score := fraud_score row
    rules_triggered :=
      if (fraud_flags row).isEmpty then ("NONE")
      else String.intercalate (", ") (fraud_flags row)
    actual_fraud := row.is_fraud }

/-- `FraudDetector.run_all_rules`: every row of the claims table yields one
result record, in table order. -/
def run_all_rules (rows : List Row) : List Assessment :=
  rows.map evaluate

/-- The six rules with their labels and weights, in the fixed source
order. -/
def ruleTable : List (String × ℕ × (Row → Bool)) :=
  [("DUPLICATE", 20, rule_duplicate_claims),
   ("AMOUNT_ANOMALY", 25, rule_amount_anomaly),
   ("CODE_MISMATCH", 15, rule_code_mismatch),
   ("VELOCITY_FRAUD", 20, rule_velocity_fraud),
   ("PROVIDER_OUTLIER", 15, rule_provider_outlier),
   ("IMPOSSIBLE_SCENARIO", 30, rule_impossible_scenario)]

/-- The rules of the table whose trigger predicate holds on a row. -/
def triggeredRules (row : Row) : List (String × ℕ × (Row → Bool)) :=
  ruleTable.filter (fun t => t.2.2 row)

/-- The label list equals the labels of exactly the triggered table rules,
in table order: the loop appends labels under the same guards the filter
tests. -/
theorem fraud_flags_eq_names (row : Row) :
    fraud_flags row = (triggeredRules row).map (fun t => t.1) := by
  cases h1 : rule_duplicate_claims row <;>
  cases h2 : rule_amount_anomaly row <;>
  cases h3 : rule_code_mismatch row <;>
  cases h4 : rule_velocity_fraud row <;>
  cases h5 : rule_provider_outlier row <;>
  cases h6 : rule_impossible_scenario row <;>
  simp [fraud_flags, triggeredRules, ruleTable, List.filter, h1, h2, h3, h4, h5, h6]

/-- The uncapped score accumulator equals the weight sum of exactly the
triggered table rules. -/
theorem fraud_score_raw_eq_sum (row : Row) :
    fraud_score_raw row = ((triggeredRules row).map (fun t => t.2.1)).sum := by
  cases h1 : rule_duplicate_claims row <;>
  cases h2 : rule_amount_anomaly row <;>
  cases h3 : rule_code_mismatch row <;>
  cases h4 : rule_velocity_fraud row <;>
  cases h5 : rule_provider_outlier row <;>
  cases h6 : rule_impossible_scenario row <;>
  simp [fraud_score_raw, triggeredRules, ruleTable, List.filter, h1, h2, h3, h4, h5, h6]

/-- Per-label membership in the flag list coincides with the rule's own
predicate. -/
theorem mem_flags_iff_each (row : Row) :
    (("DUPLICATE" ∈ fraud_flags row) ↔ rule_duplicate_claims row = true) ∧
    (("AMOUNT_ANOMALY" ∈ fraud_flags row) ↔ rule_amount_anomaly row = true) ∧
    (("CODE_MISMATCH" ∈ fraud_flags row) ↔ rule_code_mismatch row = true) ∧
    (("VELOCITY_FRAUD" ∈ fraud_flags row) ↔ rule_velocity_fraud row = true) ∧
    (("PROVIDER_OUTLIER" ∈ fraud_flags row) ↔ rule_provider_outlier row = true) ∧
    (("IMPOSSIBLE_SCENARIO" ∈ fraud_flags row) ↔ rule_impossible_scenario row = true) := by
  cases h1 : rule_duplicate_claims row <;>
  cases h2 : rule_amount_anomaly row <;>
  cases h3 : rule_code_mismatch row <;>
  cases h4 : rule_velocity_fraud row <;>
  cases h5 : rule_provider_outlier row <;>
  cases h6 : rule_impossible_scenario row <;>
  simp [fraud_flags, h1, h2, h3, h4, h5, h6]

/-- Every rule weight in the table is at least 15. -/
theorem weight_ge_fifteen (t : String × ℕ × (Row → Bool)) (ht : t ∈ ruleTable) :
    15 ≤ t.2.1 := by
  simp only [ruleTable, List.mem_cons, List.not_mem_nil, or_false] at ht
  rcases ht with rfl | rfl | rfl | rfl | rfl | rfl <;> norm_num

/-- A nonempty triggered set carries weight sum at least 15. -/
theorem sum_weights_ge (row : Row) (hne : triggeredRules row ≠ []) :
    15 ≤ ((triggeredRules row).map (fun t => t.2.1)).sum := by
  cases htr : triggeredRules row with
  | nil => exact absurd htr hne
  | cons t ts =>
    have ht : t ∈ ruleTable := by
      apply List.mem_of_mem_filter (p := fun t => t.2.2 row)
      show t ∈ triggeredRules row
      rw [htr]
      exact List.mem_cons_self t ts
    calc 15 ≤ t.2.1 := weight_ge_fifteen t ht
    _ ≤ t.2.1 + (ts.map (fun t => t.2.1)).sum := Nat.le_add_right _ _
    _ = ((t :: ts).map (fun t => t.2.1)).sum := by simp

/-- `fraud_detected` is false exactly when no label was appended. -/
theorem detected_false_iff_flags_nil (row : Row) :
    fraud_detected row = false ↔ fraud_flags row = [] := by
  simp [fraud_detected, List.length_pos, List.eq_nil_iff_forall_not_mem]

/-- C1: for every enriched claim the produced fraud score satisfies
`0 ≤ fraud_score ≤ 100`, equals the sum of the weights of exactly the
triggered rules capped at 100, and vanishes precisely when
`fraud_detected` is false. -/
theorem fraud_score_bounds_and_zero_iff (row : Row) :
    0 ≤ fraud_score row ∧ fraud_score row ≤ 100 ∧
    fraud_score row = min (((triggeredRules row).map (fun t => t.2.1)).sum) 100 ∧
    (fraud_score row = 0 ↔ fraud_detected row = false) := by
  refine ⟨Nat.zero_le _, Nat.min_le_right _ _,
    by rw [fraud_score, fraud_score_raw_eq_sum], ?_⟩
  constructor
  · intro h0
    rw [detected_false_iff_flags_nil, fraud_flags_eq_names]
    by_contra hne
    have htrig : triggeredRules row ≠ [] := by
      intro hnil
      exact hne (by rw [hnil]; rfl)
    have h15 : 15 ≤ fraud_score row := by
      rw [fraud_score, fraud_score_raw_eq_sum]
      exact le_min (sum_weights_ge row htrig) (by norm_num)
    omega
  · intro hf
    have hnil : fraud_flags row = [] := (detected_false_iff_flags_nil row).mp hf
    rw [fraud_flags_eq_names] at hnil
    have htrig : triggeredRules row = [] := by
      rcases List.map_eq_nil_iff.mp hnil with h
      exact h
    rw [fraud_score, fraud_score_raw_eq_sum, htrig]
    rfl

/-- C2: the `rules_triggered` output lists exactly the rules whose trigger
predicate holds on the row's enriched features — no omission, no extras —
in the fixed table order DUPLICATE, AMOUNT_ANOMALY, CODE_MISMATCH,
VELOCITY_FRAUD, PROVIDER_OUTLIER, IMPOSSIBLE_SCENARIO; all six predicates
determine the outcome extensionally (no short-circuit changes it), and the
stored string is the comma join of that list (or NONE). -/
theorem rules_triggered_exact (row : Row) :
    fraud_flags row = (triggeredRules row).map (fun t => t.1) ∧
    ((("DUPLICATE" ∈ fraud_flags row) ↔ rule_duplicate_claims row = true) ∧
     (("AMOUNT_ANOMALY" ∈ fraud_flags row) ↔ rule_amount_anomaly row = true) ∧
     (("CODE_MISMATCH" ∈ fraud_flags row) ↔ rule_code_mismatch row = true) ∧
     (("VELOCITY_FRAUD" ∈ fraud_flags row) ↔ rule_velocity_fraud row = true) ∧
     (("PROVIDER_OUTLIER" ∈ fraud_flags row) ↔ rule_provider_outlier row = true) ∧
     (("IMPOSSIBLE_SCENARIO" ∈ fraud_flags row) ↔ rule_impossible_scenario row = true)) ∧
    (evaluate row).rules_triggered =
      (if (fraud_flags row).isEmpty then ("NONE")
       else String.intercalate (", ") (fraud_flags row)) :=
  ⟨fraud_flags_eq_names row, mem_flags_iff_each row, rfl⟩

/-- C6: every enriched claim yields exactly one assessment record — the
output has one record per input row, in order, carrying that row's
claim_id (duplicate claim instances each keep their own record). -/
theorem run_all_rules_one_row_per_claim (rows : List Row) :
    (run_all_rules rows).length = rows.length ∧
    (run_all_rules rows).map Assessment.claim_id = rows.map Row.claim_id := by
  refine ⟨by simp [run_all_rules], ?_⟩
  rw [run_all_rules, List.map_map]
  rfl

/-- C10: a detected claim scores at least 15 (the smallest rule weight),
and every produced score is the capped sum of a sublist of the weight
table 20, 25, 15, 20, 15, 30. -/
theorem fraud_score_min_weight (row : Row) (h : fraud_detected row = true) :
    15 ≤ fraud_score row ∧
    ∃ ws : List ℕ, ws.Sublist [20, 25, 15, 20, 15, 30] ∧
      fraud_score row = min ws.sum 100 := by
  constructor
  · have hne : fraud_flags row ≠ [] := by
      intro hnil
      rw [(detected_false_iff_flags_nil row).mpr hnil] at h
      cases h
    have htrig : triggeredRules row ≠ [] := by
      intro hnil
      apply hne
      rw [fraud_flags_eq_names, hnil]
      rfl
    rw [fraud_score, fraud_score_raw_eq_sum]
    exact le_min (sum_weights_ge row htrig) (by norm_num)
  · refine ⟨(triggeredRules row).map (fun t => t.2.1), ?_, ?_⟩
    · have hsub : (triggeredRules row).Sublist ruleTable := List.filter_sublist _
      have hmap := hsub.map (fun t => t.2.1)
      simpa [ruleTable] using hmap
    · rw [fraud_score, fraud_score_raw_eq_sum]

/-- A benign stored row: no rule fires on it. -/
def baseRow : Row :=
  { claim_id := ("CLM-BASE")
    claim_amount := 100
    procedure_code := ("GP001")
    diagnosis_code := ("D_ROUTINE01")
    is_fraud := false
    provider_avg_amount := 100
    specialty_avg_amount := 100
    amount_zscore := 0
    is_provider_outlier := false
    patient_claims_7d := 1
    patient_claims_30d := 1
    same_day_claim_count := 1
    is_code_mismatch := false
    duplicate_count := 1
    is_high_amount := false
    is_surgery := false
    same_day_surgeries := false }

/-- A stored row whose claim_id occurs twice in the table. -/
def dupRow : Row :=
  { baseRow with claim_id := ("CLM-DUP"), duplicate_count := 2 }

/-- Witness for C10 at a concrete duplicated claim. -/
theorem fraud_score_min_weight_witness :
    fraud_detected dupRow = true ∧
    (15 ≤ fraud_score dupRow ∧
      ∃ ws : List ℕ, ws.Sublist [20, 25, 15, 20, 15, 30] ∧
        fraud_score dupRow = min ws.sum 100) :=
  ⟨by decide, fraud_score_min_weight dupRow (by decide)⟩

/-- A one-patient fixture claim for the velocity scenarios. -/
def mkVClaim (id : String) (d : ℤ) : Claim :=
  { claim_id := id
    patient_id := ("P1")
    provider_id := ("PR1")
    provider_specialty := ("Cardiology")
    procedure_code := ("CARD001")
    diagnosis_code := ("D_HEART01")
    claim_amount := 100
    claim_date := d
    status := ("approved")
    is_fraud := false }

/-- Five claims of patient P1 on days 0..4 — all within a 7-day span. -/
def velocityClaims : List Claim :=
  [mkVClaim ("V1") 0, mkVClaim ("V2") 1, mkVClaim ("V3") 2,
   mkVClaim ("V4") 3, mkVClaim ("V5") 4]

/-- A claim of a second patient, far from the P1 cluster.  Its presence
gives the fixture population two patient groups, so the pipeline's
window-count assignment succeeds on `velocityPop`
(`windowCountAssignmentOk` holds) and the enriched rows are actually
produced. -/
def otherClaim : Claim :=
  { mkVClaim ("V6") 100 with patient_id := ("P2") }

/-- The two-patient fixture population: P1's five-claim cluster plus one
claim of P2. -/
def velocityPop : List Claim :=
  velocityClaims ++ [otherClaim]

/-- The earliest-dated claim of the P1 cluster. -/
def velocityEarliest : Claim := mkVClaim ("V1") 0

/-- The latest-dated claim of the P1 cluster. -/
def velocityLatest : Claim := mkVClaim ("V5") 4

/-- C9: every claim of the population counts itself, so the enriched
window counts satisfy `1 ≤ patient_claims_7d ≤ patient_claims_30d`,
`1 ≤ same_day_claim_count`, and `1 ≤ duplicate_count`. -/
theorem window_count_invariants (pop : List Claim) (c : Claim) (hc : c ∈ pop) :
    1 ≤ patient_claims_7d pop c ∧
    patient_claims_7d pop c ≤ patient_claims_30d pop c ∧
    1 ≤ same_day_claim_count pop c ∧
    1 ≤ duplicate_count pop c := by
  refine ⟨?_, ?_, ?_, ?_⟩
  · show 0 < _
    refine List.countP_pos_iff.mpr ⟨c, hc, ?_⟩
    simp only [Bool.and_eq_true, beq_self_eq_true, decide_eq_true_eq, true_and]
    omega
  · apply List.countP_mono_left
    intro x hx hpx
    simp only [Bool.and_eq_true, beq_iff_eq, decide_eq_true_eq] at hpx ⊢
    obtain ⟨⟨hid, hlo⟩, hhi⟩ := hpx
    exact ⟨⟨hid, by omega⟩, hhi⟩
  · show 0 < _
    refine List.countP_pos_iff.mpr ⟨c, hc, ?_⟩
    simp
  · show 0 < _
    refine List.countP_pos_iff.mpr ⟨c, hc, ?_⟩
    simp

/-- Witness for C9 at a concrete population. -/
theorem window_count_invariants_witness :
    velocityEarliest ∈ velocityPop ∧
    (1 ≤ patient_claims_7d velocityPop velocityEarliest ∧
     patient_claims_7d velocityPop velocityEarliest ≤
       patient_claims_30d velocityPop velocityEarliest ∧
     1 ≤ same_day_claim_count velocityPop velocityEarliest ∧
     1 ≤ duplicate_count velocityPop velocityEarliest) :=
  ⟨by decide, window_count_invariants velocityPop velocityEarliest (by decide)⟩

/-- C3 counterexample: a two-patient population (so the pipeline's
window-count assignment succeeds and the enriched rows are produced) in
which patient P1 has exactly five claims, all dated within a 7-day span
(days 0..4) — yet the earliest-dated of them counts only itself in its
trailing window: its `patient_claims_7d` is 1, not ≥ 5, and
VELOCITY_FRAUD does not trigger on it. -/
theorem velocity_sevenday_span_counterexample :
    windowCountAssignmentOk velocityPop = true ∧
    velocityPop.filter (fun x => x.patient_id == ("P1")) = velocityClaims ∧
    velocityClaims.length = 5 ∧
    (velocityClaims.map (fun x => x.claim_id)).Nodup ∧
    velocityClaims.all (fun x =>
      velocityClaims.all (fun y =>
        decide ((x.claim_date - y.claim_date).natAbs ≤ 7))) = true ∧
    velocityEarliest ∈ velocityClaims ∧
    velocityEarliest ∈ velocityPop ∧
    patient_claims_7d velocityPop velocityEarliest = 1 ∧
    patient_claims_30d velocityPop velocityEarliest = 1 ∧
    rule_velocity_fraud { baseRow with
      patient_claims_7d := patient_claims_7d velocityPop velocityEarliest,
      patient_claims_30d := patient_claims_30d velocityPop velocityEarliest } =
      false := by
  decide

/-- C3 (amended): among five claims of one patient, any one of them whose
trailing inclusive window `[claim_date − 7, claim_date]` contains all five
dates — in particular a latest-dated one when the five lie within a 7-day
span — receives `patient_claims_7d ≥ 5` and triggers VELOCITY_FRAUD. -/
theorem velocity_trailing_window_trigger (pop s : List Claim) (c : Claim)
    (hsub : s.Sublist pop) (hlen : s.length = 5) (hc : c ∈ s)
    (hpat : ∀ x ∈ s, x.patient_id = c.patient_id)
    (hwin : ∀ x ∈ s, c.claim_date - 7 ≤ x.claim_date ∧
      x.claim_date ≤ c.claim_date) :
    5 ≤ patient_claims_7d pop c ∧
    (∀ row : Row, row.patient_claims_7d = patient_claims_7d pop c →
      rule_velocity_fraud row = true) := by
  have hcount : 5 ≤ patient_claims_7d pop c := by
    have h1 : s.countP (fun x => x.patient_id == c.patient_id &&
        decide (c.claim_date - 7 ≤ x.claim_date) &&
        decide (x.claim_date ≤ c.claim_date)) = s.length := by
      apply List.countP_eq_length.mpr
      intro a ha
      simp only [Bool.and_eq_true, beq_iff_eq, decide_eq_true_eq]
      exact ⟨⟨hpat a ha, (hwin a ha).1⟩, (hwin a ha).2⟩
    have h2 := hsub.countP_le (fun x => x.patient_id == c.patient_id &&
        decide (c.claim_date - 7 ≤ x.claim_date) &&
        decide (x.claim_date ≤ c.claim_date))
    rw [patient_claims_7d]
    omega
  refine ⟨hcount, ?_⟩
  intro row hrow
  have h5 : 5 ≤ row.patient_claims_7d := by rw [hrow]; exact hcount
  rw [rule_velocity_fraud, if_pos h5]

/-- Witness for C3 (amended) at the latest-dated claim of the P1 cluster
inside the two-patient fixture population. -/
theorem velocity_trailing_window_trigger_witness :
    5 ≤ patient_claims_7d velocityPop velocityLatest ∧
    rule_velocity_fraud { baseRow with
      patient_claims_7d := patient_claims_7d velocityPop velocityLatest } =
      true := by
  have h := velocity_trailing_window_trigger velocityPop velocityClaims
    velocityLatest (List.sublist_append_left _ _) (by decide) (by decide)
    (by decide) (by decide)
  exact ⟨h.1, h.2 _ rfl⟩

/-- A list of nonnegative rationals with zero sum is pointwise zero. -/
theorem list_sum_nonneg_all_zero {l : List ℚ} (hnn : ∀ x ∈ l, 0 ≤ x)
    (hs : l.sum = 0) : ∀ x ∈ l, x = 0 := by
  induction l with
  | nil => simp
  | cons a t ih =>
    have hta : 0 ≤ t.sum :=
      List.sum_nonneg (fun x hx => hnn x (List.mem_cons_of_mem _ hx))
    have ha : 0 ≤ a := hnn a (List.mem_cons_self _ _)
    have hsum : a + t.sum = 0 := by simpa using hs
    have ha0 : a = 0 := by linarith
    have ht0 : t.sum = 0 := by linarith
    intro x hx
    rcases List.mem_cons.mp hx with rfl | hx'
    · exact ha0
    · exact ih (fun y hy => hnn y (List.mem_cons_of_mem _ hy)) ht0 x hx'

/-- The specialty variance is nonnegative whenever the sample has at least
two members. -/
theorem specialtyVariance_nonneg (pop : List Claim) (s : String)
    (h2 : 2 ≤ (specialtyClaims pop s).length) :
    0 ≤ specialtyVariance pop s := by
  apply div_nonneg
  · apply List.sum_nonneg
    intro x hx
    simp only [List.mem_map] at hx
    obtain ⟨y, _, rfl⟩ := hx
    positivity
  · have hcast : (2 : ℚ) ≤ ((specialtyClaims pop s).length : ℚ) := by
      exact_mod_cast h2
    linarith

/-- A claim of the population belongs to its own specialty group. -/
theorem mem_specialtyClaims_self (pop : List Claim) (c : Claim)
    (hc : c ∈ pop) : c ∈ specialtyClaims pop c.provider_specialty :=
  List.mem_filter.mpr ⟨hc, by simp⟩

/-- When the specialty variance vanishes on a sample of at least two
claims, every member's amount — in particular this claim's — equals the
specialty mean. -/
theorem amount_eq_mean_of_var_zero (pop : List Claim) (c : Claim)
    (hc : c ∈ pop)
    (h2 : 2 ≤ (specialtyClaims pop c.provider_specialty).length)
    (hv : specialtyVariance pop c.provider_specialty = 0) :
    c.claim_amount = specialty_avg_amount pop c.provider_specialty := by
  have hcast : (2 : ℚ) ≤ ((specialtyClaims pop c.provider_specialty).length : ℚ) := by
    exact_mod_cast h2
  have hden : (((specialtyClaims pop c.provider_specialty).length : ℚ) - 1) ≠ 0 := by
    intro h
    linarith
  have hsum : ((specialtyClaims pop c.provider_specialty).map
      (fun x => (x.claim_amount -
        specialty_avg_amount pop c.provider_specialty) ^ 2)).sum = 0 := by
    rcases div_eq_zero_iff.mp hv with h | h
    · exact h
    · exact absurd h hden
  have hmem : (c.claim_amount -
      specialty_avg_amount pop c.provider_specialty) ^ 2 ∈
      ((specialtyClaims pop c.provider_specialty).map
        (fun x => (x.claim_amount -
          specialty_avg_amount pop c.provider_specialty) ^ 2)) :=
    List.mem_map.mpr ⟨c, mem_specialtyClaims_self pop c hc, rfl⟩
  have hsq : (c.claim_amount -
      specialty_avg_amount pop c.provider_specialty) ^ 2 = 0 := by
    refine list_sum_nonneg_all_zero ?_ hsum _ hmem
    intro x hx
    simp only [List.mem_map] at hx
    obtain ⟨y, _, rfl⟩ := hx
    positivity
  have hzero := pow_eq_zero_iff (two_ne_zero) |>.mp hsq
  linarith

/-- C4: the z-score column after `fillna(0)` is always a finite value —
never NaN or infinite; it is exactly 0 whenever the specialty's sample
standard deviation is undefined (fewer than two claims, where the column
holds NaN) or zero (zero variance); and whenever the deviation is defined
and nonzero it equals `(claim_amount − specialty_mean) / specialty_stddev`
with a nonzero divisor. -/
theorem amount_zscore_finite_and_edges (pop : List Claim) (c : Claim)
    (hc : c ∈ pop) :
    (∃ x : ℝ, amount_zscore pop c = FloatV.val x) ∧
    ((specialtyClaims pop c.provider_specialty).length < 2 →
      specialty_std_amount pop c.provider_specialty = FloatV.nan ∧
      amount_zscore pop c = FloatV.val 0) ∧
    (specialtyVariance pop c.provider_specialty = 0 →
      amount_zscore pop c = FloatV.val 0) ∧
    (2 ≤ (specialtyClaims pop c.provider_specialty).length →
      specialtyVariance pop c.provider_specialty ≠ 0 →
      Real.sqrt ((specialtyVariance pop c.provider_specialty : ℚ) : ℝ) ≠ 0 ∧
      amount_zscore pop c = FloatV.val
        (((c.claim_amount : ℚ) -
            (specialty_avg_amount pop c.provider_specialty : ℚ) : ℝ) /
          Real.sqrt ((specialtyVariance pop c.provider_specialty : ℚ) : ℝ))) := by
  by_cases hn : (specialtyClaims pop c.provider_specialty).length < 2
  · have hstd : specialty_std_amount pop c.provider_specialty = FloatV.nan := by
      rw [specialty_std_amount, if_pos hn]
    have hz : amount_zscore pop c = FloatV.val 0 := by
      rw [amount_zscore, hstd]
      rfl
    exact ⟨⟨0, hz⟩, fun _ => ⟨hstd, hz⟩, fun _ => hz,
      fun h2 _ => absurd hn (by omega)⟩
  · have h2 : 2 ≤ (specialtyClaims pop c.provider_specialty).length := by omega
    have hstd : specialty_std_amount pop c.provider_specialty = FloatV.val
        (Real.sqrt ((specialtyVariance pop c.provider_specialty : ℚ) : ℝ)) := by
      rw [specialty_std_amount, if_neg hn]
    by_cases hv : specialtyVariance pop c.provider_specialty = 0
    · have hmean := amount_eq_mean_of_var_zero pop c hc h2 hv
      have hnum : (c.claim_amount : ℝ) -
          (specialty_avg_amount pop c.provider_specialty : ℝ) = 0 := by
        rw [hmean]
        simp
      have hz : amount_zscore pop c = FloatV.val 0 := by
        rw [amount_zscore, hstd, hv, hnum]
        norm_num [fdiv, fillna0, Real.sqrt_zero]
      exact ⟨⟨0, hz⟩, fun hlt => absurd hlt hn, fun _ => hz,
        fun _ hv' => absurd hv hv'⟩
    · have hvpos : 0 < specialtyVariance pop c.provider_specialty :=
        lt_of_le_of_ne (specialtyVariance_nonneg pop _ h2) (Ne.symm hv)
      have hsqrt : 0 < Real.sqrt
          ((specialtyVariance pop c.provider_specialty : ℚ) : ℝ) :=
        Real.sqrt_pos.mpr (by exact_mod_cast hvpos)
      have hsne : Real.sqrt
          ((specialtyVariance pop c.provider_specialty : ℚ) : ℝ) ≠ 0 :=
        ne_of_gt hsqrt
      have hz : amount_zscore pop c = FloatV.val
          (((c.claim_amount : ℚ) -
              (specialty_avg_amount pop c.provider_specialty : ℚ) : ℝ) /
            Real.sqrt ((specialtyVariance pop c.provider_specialty : ℚ) : ℝ)) := by
        rw [amount_zscore, hstd]
        simp [fdiv, fillna0, hsne]
      exact ⟨⟨_, hz⟩, fun hlt => absurd hlt hn, fun hv0 => absurd hv0 hv,
        fun _ _ => ⟨hsne, hz⟩⟩

/-- A lone claim in its specialty, for the z-score edge case. -/
def zClaim : Claim := mkVClaim ("Z1") 0

/-- A population whose single specialty sample has one member. -/
def zPop : List Claim := [zClaim]

/-- Witness for C4 at a one-claim specialty: the standard deviation is
undefined and the stored z-score is exactly 0. -/
theorem amount_zscore_witness :
    zClaim ∈ zPop ∧
    (specialtyClaims zPop zClaim.provider_specialty).length < 2 ∧
    specialty_std_amount zPop zClaim.provider_specialty = FloatV.nan ∧
    amount_zscore zPop zClaim = FloatV.val 0 := by
  have h := (amount_zscore_finite_and_edges zPop zClaim (by decide)).2.1
    (by decide)
  exact ⟨by decide, by decide, h.1, h.2⟩

/-- The procedure prefix as the specification words it — "the portion of
`procedure_code` before the first digit".  This definition exists only to
be compared with `procPfx`, the prefix the source actually computes by
splitting on the character '0'. -/
def specProcPfx (s : String) : String :=
  String.mk (s.data.takeWhile (fun ch => !ch.isDigit))

/-- The code-mismatch flag as the specification words it: `is_code_mismatch`
with the diagnosis prefix table but the before-the-first-digit procedure
prefix.  For comparison with `is_code_mismatch` only. -/
def spec_is_code_mismatch (c : Claim) : Bool :=
  match validCombos.lookup (diagPfx c.diagnosis_code) with
  | some procs => !(procs.contains (specProcPfx c.procedure_code))
  | none => false

/-- A claim whose procedure code carries digits before its first '0'. -/
def mismatchCex : Claim :=
  { mkVClaim ("M1") 0 with
      diagnosis_code := ("D_HEART_77"), procedure_code := ("CARD123") }

/-- C5 counterexample: on diagnosis `D_HEART_77` with procedure `CARD123`
the spec's before-the-first-digit prefix is CARD, which the D_HEART family
accepts, so the claimed computation reports no mismatch — but the source
splits on the character '0', keeps the whole of CARD123 as prefix, and
flags a mismatch. -/
theorem code_mismatch_digit_split_counterexample :
    diagPfx mismatchCex.diagnosis_code = ("D_HEART") ∧
    validCombos.lookup (diagPfx mismatchCex.diagnosis_code) =
      some [("CARD")] ∧
    specProcPfx mismatchCex.procedure_code = ("CARD") ∧
    procPfx mismatchCex.procedure_code = ("CARD123") ∧
    spec_is_code_mismatch mismatchCex = false ∧
    is_code_mismatch mismatchCex = true := by
  decide

/-- C5 (amended): the code-mismatch flag is true exactly when the
diagnosis prefix (first two underscore-delimited tokens) is a known family
of the fixed table and the procedure prefix — the portion of
`procedure_code` before the first '0' character — is not in that family's
accepted set; any diagnosis prefix outside the table, including malformed
diagnosis codes, yields false. -/
theorem code_mismatch_characterization (c : Claim) :
    (is_code_mismatch c = true ↔
      ∃ procs, validCombos.lookup (diagPfx c.diagnosis_code) = some procs ∧
        procs.contains (procPfx c.procedure_code) = false) ∧
    (validCombos.lookup (diagPfx c.diagnosis_code) = none →
      is_code_mismatch c = false) := by
  have hunf : is_code_mismatch c =
      (match validCombos.lookup (diagPfx c.diagnosis_code) with
       | some procs => !(procs.contains (procPfx c.procedure_code))
       | none => false) := rfl
  rw [hunf]
  cases h : validCombos.lookup (diagPfx c.diagnosis_code) with
  | none => simp
  | some procs => simp

/-- A claim with no underscore-delimited diagnosis family. -/
def unknownDiagClaim : Claim :=
  { mkVClaim ("U1") 0 with
      diagnosis_code := ("FLUCASE"), procedure_code := ("GP001") }

/-- Witness for C5 (amended): an unknown diagnosis family never flags. -/
theorem code_mismatch_characterization_witness :
    validCombos.lookup (diagPfx unknownDiagClaim.diagnosis_code) = none ∧
    is_code_mismatch unknownDiagClaim = false :=
  ⟨by decide, (code_mismatch_characterization unknownDiagClaim).2 (by decide)⟩

/-- C7 (code bug): on the empty claim population the Feature Engine does
not produce an empty enriched set — `df.groupby('patient_id')` has zero
groups, so the `patient_claims_7d` assignment receives a multi-column
DataFrame and raises `ValueError`, aborting the transform before any row
is emitted.  By contrast the shape condition holds on the fixture
populations the pipeline does handle (two patient groups, or a single
one-claim group). -/
theorem empty_population_window_assignment_fails :
    patientGroups ([] : List Claim) = [] ∧
    windowCountAssignmentOk ([] : List Claim) = false ∧
    windowCountAssignmentOk velocityPop = true ∧
    windowCountAssignmentOk zPop = true := by
  decide

/-- C8: the Feature Engine's transform is a pure function of the claim
snapshot: re-running it on the same unchanged population yields identical
enriched output. -/
theorem transform_deterministic (pop1 pop2 : List Claim) (h : pop1 = pop2) :
    transform pop1 = transform pop2 := by
  rw [h]

/-- Witness for C8 on a concrete population. -/
theorem transform_deterministic_witness :
    transform velocityPop = transform velocityPop :=
  transform_deterministic velocityPop velocityPop rfl
